import Mathlib

/-!
Verification of the food-recipe-analyzer browser client.

The development shallowly embeds the three JavaScript source files:

* `api.js` (`class GroqAPI`): credential storage with a durable/ephemeral
  fallback chain, the vision call `analyzeFood`, the narration builder
  inside `generateVoiceDescription`, and `testConnection` / `clearApiKey`.
* `camera.js` (`class CameraManager`): `initialize`, `captureImage`
  (downscale + JPEG re-encode) and `switchCamera` with its fallback.
* `app.js` (`class FoodAnalyzerApp`): the orchestration flows
  `analyzeFood` and `handleFileUpload`, plus the bounded history store.

Host primitives (fetch, `JSON.parse`, `localStorage`, the canvas and the
media devices) are not part of the repository; they are modelled
explicitly: HTTP responses and `getUserMedia` outcomes are oracle
parameters, storage is a record of optional slots together with flags
saying which storage operations throw, and `JSON.parse` is a
recursive-descent parser over the JSON grammar (numbers restricted to
optionally signed integers, which is enough for every value the client
manipulates).  Image dimensions use `Rat`: the JavaScript engine computes
them in binary floating point, but every inequality proved or refuted
below is robust to that rounding.
-/

/-! ## JSON values and the `JSON.parse` host primitive -/

/-- A JSON value, as produced by the host `JSON.parse`. -/
inductive Json where
  | null : Json
  | bool (b : Bool) : Json
  | num (n : Int) : Json
  | str (s : String) : Json
  | arr (elems : List Json) : Json
  | obj (fields : List (String × Json)) : Json

/-- Consume leading JSON whitespace. -/
def jsonSkipWs : List Char → List Char
  | c :: cs => if c = ' ' ∨ c = '\n' ∨ c = '\t' ∨ c = '\r' then jsonSkipWs cs else c :: cs
  | [] => []

/-- Consume an expected literal character sequence, returning the
remainder of the input when it was present. -/
def jsonChomp : List Char → List Char → Option (List Char)
  | [], cs => some cs
  | _ :: _, [] => none
  | l :: ls, c :: cs => if c = l then jsonChomp ls cs else none

/-- Unescape one JSON string escape character. -/
def jsonEscChar (e : Char) : Option Char :=
  if e = 'n' then some '\n'
  else if e = 't' then some '\t'
  else if e = 'r' then some '\r'
  else if e = '"' ∨ e = '\\' ∨ e = '/' then some e
  else none

/-- Parse the body of a JSON string after the opening quote, handling the
single-character escapes. -/
def jsonParseStringBody : List Char → Option (String × List Char)
  | [] => none
  | '"' :: rest => some ("", rest)
  | '\\' :: e :: rest =>
    (jsonEscChar e).bind fun c =>
      (jsonParseStringBody rest).map fun (s, rem) => (String.mk (c :: s.data), rem)
  | c :: rest =>
    (jsonParseStringBody rest).map fun (s, rem) => (String.mk (c :: s.data), rem)

/-- Parse a run of decimal digits. -/
def jsonParseDigits : List Char → Nat → Option (Nat × List Char)
  | c :: cs, acc =>
    if c.isDigit then jsonParseDigits cs (acc * 10 + (c.toNat - '0'.toNat))
    else some (acc, c :: cs)
  | [], acc => some (acc, [])

mutual

/-- Recursive-descent parser for one JSON value, dispatching on the first
significant character; `fuel` bounds nesting. -/
def jsonParseVal : Nat → List Char → Option (Json × List Char)
  | 0, _ => none
  | Nat.succ fuel, input =>
    match jsonSkipWs input with
    | [] => none
    | c :: rest =>
      if c = '"' then
        (jsonParseStringBody rest).map fun (s, rem) => (.str s, rem)
      else if c = '[' then
        match jsonSkipWs rest with
        | ']' :: rem => some (.arr [], rem)
        | other => (jsonParseElems fuel other).map fun (l, rem) => (.arr l, rem)
      else if c = '\x7b' then
        match jsonSkipWs rest with
        | '\x7d' :: rem => some (.obj [], rem)
        | other => (jsonParseMembers fuel other).map fun (l, rem) => (.obj l, rem)
      else if c = '-' then
        match rest with
        | d :: _ =>
          if d.isDigit then
            (jsonParseDigits rest 0).map fun (n, rem) => (.num (-(n : Int)), rem)
          else none
        | [] => none
      else if c.isDigit then
        (jsonParseDigits (c :: rest) 0).map fun (n, rem) => (.num (n : Int), rem)
      else if c = 'n' then
        (jsonChomp ['u', 'l', 'l'] rest).map fun rem => (.null, rem)
      else if c = 't' then
        (jsonChomp ['r', 'u', 'e'] rest).map fun rem => (.bool true, rem)
      else if c = 'f' then
        (jsonChomp ['a', 'l', 's', 'e'] rest).map fun rem => (.bool false, rem)
      else none

/-- Parse the elements of a non-empty JSON array (after the bracket). -/
def jsonParseElems : Nat → List Char → Option (List Json × List Char)
  | 0, _ => none
  | Nat.succ fuel, cs =>
    (jsonParseVal fuel cs).bind fun (v, rest) =>
      match jsonSkipWs rest with
      | ',' :: more => (jsonParseElems fuel more).map fun (l, rem) => (v :: l, rem)
      | ']' :: rem => some ([v], rem)
      | _ => none

/-- Parse the members of a non-empty JSON object (after the brace). -/
def jsonParseMembers : Nat → List Char → Option (List (String × Json) × List Char)
  | 0, _ => none
  | Nat.succ fuel, cs =>
    match jsonSkipWs cs with
    | '"' :: rest =>
      (jsonParseStringBody rest).bind fun (key, afterKey) =>
        match jsonSkipWs afterKey with
        | ':' :: afterColon =>
          (jsonParseVal fuel afterColon).bind fun (v, rest2) =>
            match jsonSkipWs rest2 with
            | ',' :: more => (jsonParseMembers fuel more).map fun (l, rem) => ((key, v) :: l, rem)
            | '\x7d' :: rem => some ([(key, v)], rem)
            | _ => none
        | _ => none
    | _ => none

end

/-- The host `JSON.parse`: `some` on a valid document, `none` when the host
parser would throw a `SyntaxError`. -/
def jsonParse (s : String) : Option Json :=
  match jsonParseVal (2 * s.length + 2) s.data with
  | some (v, rest) => if jsonSkipWs rest = [] then some v else none
  | none => none

/-- Look up a key in a JSON object (first occurrence, as in JS objects
produced by `JSON.parse`). -/
def Json.getField : Json → String → Option Json
  | .obj fields, key => (fields.find? fun p => p.1 = key).map Prod.snd
  | _, _ => none

/-- Length of the `recipes` array of a parsed analysis object, when present. -/
def Json.recipesCount (j : Json) : Option Nat :=
  match j.getField "recipes" with
  | some (.arr l) => some l.length
  | _ => none

/-! ## GroqAPI: credential storage (`setApiKey` / `getApiKey` / `isConfigured` /
`clearApiKey`)

`localStorage` / `sessionStorage` are host objects whose operations may
throw (quota exceeded, storage disabled).  `StorageEnv` records which
operations throw; `ApiKeyState` holds the in-memory `this.apiKey` field
and the two storage slots for the key `groq_api_key`.  The companion
`groq_api_key_timestamp` entries written by `setApiKey` are never read by
the program and are not modelled. -/

/-- Which host storage operations throw in the current browser session. -/
structure StorageEnv where
  localSetThrows : Bool
  localGetThrows : Bool
  localRemoveThrows : Bool
  sessionSetThrows : Bool
  sessionGetThrows : Bool
  deriving DecidableEq

/-- The credential-relevant state of a `GroqAPI` object plus both storages. -/
structure ApiKeyState where
  apiKey : Option String
  localKey : Option String
  sessionKey : Option String
  deriving DecidableEq

/-- JS falsiness of `this.apiKey` / a `getItem` result: `null` or `""`. -/
def jsFalsy : Option String → Bool
  | none => true
  | some s => s = ""

/-- The host `String.prototype.startsWith`: prefix test on the
character sequence. -/
def jsStartsWith (s pre : String) : Bool :=
  pre.data.isPrefixOf s.data

/-- The host `String.prototype.trim`: strip leading and trailing
whitespace. -/
def jsTrim (s : String) : String :=
  String.mk
    (((s.data.dropWhile fun c => c.isWhitespace).reverse.dropWhile
        fun c => c.isWhitespace).reverse)

namespace GroqAPI

/-- JS `setApiKey(apiKey)`: set the in-memory field, then store durably in
`localStorage`; if that throws, fall back to `sessionStorage`; if that also
throws, only the in-memory copy remains. -/
def setApiKey (env : StorageEnv) (s : ApiKeyState) (key : String) : ApiKeyState :=
  let s1 : ApiKeyState := { s with apiKey := some key }
  if env.localSetThrows then
    if env.sessionSetThrows then s1
    else { s1 with sessionKey := some key }
  else { s1 with localKey := some key }

/-- JS `getApiKey()`: when the in-memory field is falsy, read `localStorage`
and, if that result is falsy, `sessionStorage`; any throw inside the `try`
resets the field to `null`.  Returns the value of `this.apiKey` together
with the updated object state. -/
def getApiKey (env : StorageEnv) (s : ApiKeyState) : Option String × ApiKeyState :=
  if jsFalsy s.apiKey then
    if env.localGetThrows then (none, { s with apiKey := none })
    else if jsFalsy s.localKey then
      if env.sessionGetThrows then (none, { s with apiKey := none })
      else (s.sessionKey, { s with apiKey := s.sessionKey })
    else (s.localKey, { s with apiKey := s.localKey })
  else (s.apiKey, s)

/-- JS `isConfigured()`: `!!(apiKey && apiKey.trim().length > 0)`. -/
def isConfigured (env : StorageEnv) (s : ApiKeyState) : Bool × ApiKeyState :=
  let (k, s2) := getApiKey env s
  (match k with
    | none => false
    | some str => decide (0 < (jsTrim str).length), s2)

/-- JS `clearApiKey()`: null the in-memory field, then
remove the `groq_api_key` entry of `localStorage` — `sessionStorage` is not
touched.  The second component records whether the (uncaught) `removeItem`
call threw. -/
def clearApiKey (env : StorageEnv) (s : ApiKeyState) : ApiKeyState × Bool :=
  if env.localRemoveThrows then ({ s with apiKey := none }, true)
  else ({ s with apiKey := none, localKey := none }, false)

end GroqAPI

/-! ## GroqAPI: remote calls (`analyzeFood`, `testConnection`, narration) -/

/-- A `fetch` response as this client consumes it: the HTTP status, the
optional `error.message` field of the JSON error envelope (for non-success
statuses), and `data.choices[0].message.content` — the textual answer of
the vision model (for success). -/
structure HttpResp where
  status : Nat
  errMsg : Option String
  content : String
  deriving DecidableEq

/-- The host `Response.ok`: status in the inclusive range 200–299. -/
def HttpResp.ok (r : HttpResp) : Bool :=
  decide (200 ≤ r.status ∧ r.status ≤ 299)

/-- JS `errorData.error?.message || fallback` (JS `||`: an empty string also
selects the fallback). -/
def jsOrElse (o : Option String) (fallback : String) : String :=
  match o with
  | none => fallback
  | some m => if m = "" then fallback else m

/-- The errors `GroqAPI.analyzeFood` can throw: the local
credential check, the non-success HTTP branch, and the `JSON.parse`
`SyntaxError` (re-thrown by the surrounding `catch`). -/
inductive AnalyzeError where
  | notConfigured : AnalyzeError
  | apiError (status : Nat) (message : String) : AnalyzeError
  | parseError : AnalyzeError
  deriving DecidableEq

namespace GroqAPI

/-- JS `analyzeFood(imageData)`: after the local `isConfigured` check, POST to
the vision endpoint (the response is the oracle `resp`); on a non-ok
status throw a vision API error; otherwise `JSON.parse` the textual
content and return the parsed object — the recipe count is never
inspected.  The second component records whether the network was used. -/
def analyzeFood (env : StorageEnv) (s : ApiKeyState) (resp : HttpResp) :
    Except AnalyzeError Json × Bool :=
  let (cfg, _) := isConfigured env s
  if cfg = false then (.error .notConfigured, false)
  else if resp.ok = false then
    (.error (.apiError resp.status (jsOrElse resp.errMsg "Unknown error")), true)
  else
    match jsonParse resp.content with
    | none => (.error .parseError, true)
    | some j => (.ok j, true)

/-- The message template of the error thrown by `testConnection` on a
non-ok status: `API test failed: ${status} - ${message}`. -/
def testFailMsg (status : Nat) (message : String) : String :=
  "API test failed: " ++ toString status ++ " - " ++ message

/-- JS `testConnection()`: after the local `isConfigured` check, send a
minimal completion request; return `true` on an ok status, otherwise
throw the `testFailMsg` error built from the status and the error
envelope (fallback the literal `Invalid API key`). -/
def testConnection (env : StorageEnv) (s : ApiKeyState) (resp : HttpResp) :
    Except String Bool :=
  let (cfg, _) := isConfigured env s
  if cfg = false then .error "API key not configured"
  else if resp.ok = false then
    .error (testFailMsg resp.status (jsOrElse resp.errMsg "Invalid API key"))
  else .ok true

end GroqAPI

/-! ## Recipes and the narration template -/

/-- One recipe suggestion, as consumed by the narration builder and the UI. -/
structure Recipe where
  name : String
  description : String
  ingredients : List String
  instructions : List String
  cookingTime : String
  difficulty : String
  deriving DecidableEq

namespace GroqAPI

/-- The deterministic narration template built inside
`generateVoiceDescription` (the exact template literal, including its
trailing spaces and 12-space indentation). -/
def voiceNarration (foodDetected : String) (r0 r1 r2 : Recipe) : String :=
  "I can see " ++ foodDetected ++ ". Here are three delicious recipes you can make: \n            \n            First, " ++
  r0.name ++ " - " ++ r0.description ++ ". This is a " ++ r0.difficulty.toLower ++
  " recipe that takes about " ++ r0.cookingTime ++ ".\n            \n            Second, " ++
  r1.name ++ " - " ++ r1.description ++ ". This " ++ r1.difficulty.toLower ++
  " dish takes " ++ r1.cookingTime ++ " to prepare.\n            \n            Finally, " ++
  r2.name ++ " - " ++ r2.description ++ ". This " ++ r2.difficulty.toLower ++
  " recipe can be ready in " ++ r2.cookingTime ++ ".\n            \n            Choose any recipe button below to see the full instructions!"

/-- The narration string `generateVoiceDescription(foodDetected, recipes)`
sends to the speech endpoint.  The template indexes `recipes[0]`,
`recipes[1]`, `recipes[2]`; with fewer than three recipes the JS code
throws a `TypeError` (`none` here); extra recipes beyond the third are
ignored. -/
def generateVoiceDescription (foodDetected : String) (recipes : List Recipe) :
    Option String :=
  match recipes with
  | r0 :: r1 :: r2 :: _ => some (voiceNarration foodDetected r0 r1 r2)
  | _ => none

end GroqAPI

/-! ## CameraManager -/

/-- A live `MediaStream` as far as this client observes it: the facing
mode reported by its video track settings, and whether its tracks are
still live (`track.stop()` clears `live`). -/
structure CamStream where
  facing : String
  live : Bool
  deriving DecidableEq

/-- The `getUserMedia` oracle.  `ideal` answers the `initialize`
constraints (`facingMode: ideal environment`): the browser may grant a
stream of any facing, or fail.  `exact` answers the `switchCamera`
constraints (`facingMode: exact f`): a granted stream has exactly the
requested facing, so success is a `Bool` per facing. -/
structure CamEnv where
  ideal : Option String
  exact : String → Bool

/-- The camera-relevant state of a `CameraManager` object. -/
structure CamState where
  stream : Option CamStream
  isInitialized : Bool
  deriving DecidableEq

namespace CameraManager

/-- JS `initialize()` (named `initCamera` here since the source name is a
Lean keyword): request a stream with the ideal-environment constraints;
on success store it and set `isInitialized`; on failure (`getUserMedia`
throws) the previous fields are left untouched and `false` is returned
after `handleCameraError`. -/
def initCamera (env : CamEnv) (s : CamState) : CamState × Bool :=
  match env.ideal with
  | some f => ({ stream := some { facing := f, live := true }, isInitialized := true }, true)
  | none => (s, false)

/-- The opposite facing computed by `switchCamera`:
the opposite of `environment` is `user` and anything else maps to `environment`. -/
def oppositeFacing (current : String) : String :=
  if current = "environment" then "user" else "environment"

/-- JS `switchCamera()`: bail out when not initialized; otherwise stop the
current tracks, request a stream with the exact opposite facing, and on
any failure inside the `try` fall back to `await this.initialize()` and
return `false`.  (`this.stream` being `null` while initialized would make
`getTracks()` throw, which the same `catch` turns into the fallback.) -/
def switchCamera (env : CamEnv) (s : CamState) : CamState × Bool :=
  if s.isInitialized = false then (s, false)
  else
    match s.stream with
    | none =>
      let (s2, _) := initCamera env s
      (s2, false)
    | some st =>
      let stopped : CamState := { s with stream := some { st with live := false } }
      let newFacing := oppositeFacing st.facing
      if env.exact newFacing then
        ({ stopped with stream := some { facing := newFacing, live := true } }, true)
      else
        let (s2, _) := initCamera env stopped
        (s2, false)

/-- A captured still image: dimensions and the JPEG quality factor passed
to `canvas.toDataURL`. -/
structure CapturedImage where
  width : Rat
  height : Rat
  quality : Rat
  deriving DecidableEq

/-- The dimension computation inside `captureImage`: cap 1024×768; when a
cap is exceeded, scale by the aspect ratio `width / height`, keyed on
`width > height`. -/
def scaleDims (w h : Rat) : Rat × Rat :=
  if w > 1024 ∨ h > 768 then
    let aspectRatio := w / h
    if w > h then (1024, 1024 / aspectRatio)
    else (768 * aspectRatio, 768)
  else (w, h)

/-- JS `captureImage()`: `null` before initialization succeeds; otherwise
draw the current `videoWidth × videoHeight` frame at the scaled
dimensions and re-encode as JPEG at quality 0.7 via `toDataURL`. -/
def captureImage (isInitialized : Bool) (videoWidth videoHeight : Rat) :
    Option CapturedImage :=
  if isInitialized = false then none
  else
    some { width := (scaleDims videoWidth videoHeight).1,
           height := (scaleDims videoWidth videoHeight).2,
           quality := (7 : Rat) / 10 }

end CameraManager

/-! ## FoodAnalyzerApp: history store and orchestration -/

/-- One persisted history record (`id` is `Date.now()`, `timestamp` the
ISO string of the same instant). -/
structure HistoryItem where
  id : Nat
  timestamp : String
  foodDetected : String
  recipes : List Recipe
  deriving DecidableEq

/-- The analysis object as the app consumes it: the fields it reads off
the parsed vision response. -/
structure Analysis where
  foodDetected : String
  recipes : List Recipe
  deriving DecidableEq

/-- JS `saveToHistory(analysis)` as a pure list operation: prepend the new
record (`unshift`), then keep only the first 10 (`slice(0, 10)`). -/
def saveToHistoryList (history : List HistoryItem) (now : Nat) (nowIso : String)
    (a : Analysis) : List HistoryItem :=
  (({ id := now, timestamp := nowIso,
      foodDetected := a.foodDetected, recipes := a.recipes } : HistoryItem)
    :: history).take 10

/-- The UI-observable state of the `FoodAnalyzerApp` object. -/
structure AppState where
  isAnalyzing : Bool
  history : List HistoryItem
  loading : Bool
  resultsVisible : Bool
  displayedFood : Option String
  displayedAudio : Option String
  errorMsg : Option String
  cameraPaused : Bool
  deriving DecidableEq

/-- Which external operations an orchestration run performed. -/
structure Trace where
  captured : Bool
  visionCalled : Bool
  speechCalled : Bool
  deriving DecidableEq

/-- The empty trace: no capture, no remote call. -/
def emptyTrace : Trace := { captured := false, visionCalled := false, speechCalled := false }

namespace FoodAnalyzerApp

/-- JS `showLoading()`: loading section shown, results hidden. -/
def showLoading (s : AppState) : AppState :=
  { s with loading := true, resultsVisible := false }

/-- JS `hideLoading()`: loading hidden and — in this version of the code —
`cameraManager.resumeStream()`. -/
def hideLoading (s : AppState) : AppState :=
  { s with loading := false, cameraPaused := false }

/-- JS `showError(message)`: the auto-dismissing error banner. -/
def showErrorMsg (s : AppState) (m : String) : AppState :=
  { s with errorMsg := some m }

/-- JS `showResults(analysis, audioBlob)`: hide loading, display the detected
food, attach the audio exactly when a blob is present, reveal results. -/
def showResults (s : AppState) (a : Analysis) (audio : Option String) : AppState :=
  let s1 := hideLoading s
  { s1 with displayedFood := some a.foodDetected,
            displayedAudio := audio,
            resultsVisible := true }

/-- JS `analyzeFood()` (the orchestrator): re-entrancy guard on
`isAnalyzing`; then show loading, pause the camera, capture, call the
vision oracle, best-effort speech oracle (its failure only nulls the
audio), save to history and show results; any thrown error is caught,
surfaced, and resumes the camera; `finally` clears `isAnalyzing`. -/
def analyzeFood (s : AppState) (now : Nat) (nowIso : String)
    (capture : Option String) (vision : Except String Analysis)
    (speech : Except String String) : AppState × Trace :=
  if s.isAnalyzing then (s, emptyTrace)
  else
    let s1 := { showLoading { s with isAnalyzing := true } with cameraPaused := true }
    match capture with
    | none =>
      let sE := hideLoading (showErrorMsg s1 "Analysis failed: Failed to capture image from camera")
      ({ sE with cameraPaused := false, isAnalyzing := false },
       { captured := true, visionCalled := false, speechCalled := false })
    | some _ =>
      match vision with
      | .error e =>
        let sE := hideLoading (showErrorMsg s1 ("Analysis failed: " ++ e))
        ({ sE with cameraPaused := false, isAnalyzing := false },
         { captured := true, visionCalled := true, speechCalled := false })
      | .ok a =>
        let audio : Option String := match speech with | .ok b => some b | .error _ => none
        let s2 := { s1 with history := saveToHistoryList s1.history now nowIso a }
        ({ showResults s2 a audio with isAnalyzing := false },
         { captured := true, visionCalled := true, speechCalled := true })

/-- A file chosen in the upload input: its MIME type and byte size. -/
structure FileInfo where
  mime : String
  size : Nat
  deriving DecidableEq

/-- JS `handleFileUpload(event)`: validate MIME prefix and the 10 MB bound,
then run the same analyze flow on the file bytes (`readResult` is the
`FileReader` oracle).  There is no `isAnalyzing` guard on this path. -/
def handleFileUpload (s : AppState) (file : Option FileInfo)
    (readResult : Except String String) (now : Nat) (nowIso : String)
    (vision : Except String Analysis) (speech : Except String String) :
    AppState × Trace :=
  match file with
  | none => (s, emptyTrace)
  | some f =>
    if jsStartsWith f.mime "image/" = false then
      (showErrorMsg s "Please select a valid image file", emptyTrace)
    else if 10 * 1024 * 1024 < f.size then
      (showErrorMsg s "Image is too large. Please select an image under 10MB", emptyTrace)
    else
      let s1 := showLoading { s with isAnalyzing := true }
      match readResult with
      | .error e =>
        ({ hideLoading (showErrorMsg s1 ("Analysis failed: " ++ e)) with isAnalyzing := false },
         emptyTrace)
      | .ok _ =>
        match vision with
        | .error e =>
          ({ hideLoading (showErrorMsg s1 ("Analysis failed: " ++ e)) with isAnalyzing := false },
           { captured := false, visionCalled := true, speechCalled := false })
        | .ok a =>
          let audio : Option String := match speech with | .ok b => some b | .error _ => none
          let s2 := { s1 with history := saveToHistoryList s1.history now nowIso a }
          ({ showResults s2 a audio with isAnalyzing := false },
           { captured := false, visionCalled := true, speechCalled := true })

end FoodAnalyzerApp

/-! ## Concrete fixtures used by witnesses and counterexamples -/

/-- A browser session in which every storage operation succeeds. -/
def benignEnv : StorageEnv :=
  { localSetThrows := false, localGetThrows := false, localRemoveThrows := false,
    sessionSetThrows := false, sessionGetThrows := false }

/-- A session whose `localStorage.setItem` throws (quota exceeded) while
reads and removals still work — the situation the fallback inside
`setApiKey` is written for. -/
def quotaEnv : StorageEnv :=
  { localSetThrows := true, localGetThrows := false, localRemoveThrows := false,
    sessionSetThrows := false, sessionGetThrows := false }

/-- Fresh `GroqAPI` object, empty storages. -/
def emptyKeyState : ApiKeyState := { apiKey := none, localKey := none, sessionKey := none }

/-- A `GroqAPI` object with an in-memory credential. -/
def configuredState : ApiKeyState :=
  { apiKey := some "gsk-test-key", localKey := none, sessionKey := none }

/-- A successful vision response whose content parses to an object with
exactly 2 recipes. -/
def twoRecipeResp : HttpResp :=
  { status := 200, errMsg := none,
    content := "\x7b\"foodDetected\":\"tomato and bread\",\"recipes\":[\x7b\"name\":\"Bruschetta\"\x7d,\x7b\"name\":\"Tomato soup\"\x7d]\x7d" }

/-- A successful vision response whose content is prose, not JSON. -/
def nonJsonResp : HttpResp :=
  { status := 200, errMsg := none,
    content := "Sorry, I am not able to identify the food in this image." }

/-- An unauthorized response from the completion endpoint. -/
def resp401 : HttpResp :=
  { status := 401, errMsg := some "Invalid API Key", content := "" }

/-- Sample recipes for concrete runs. -/
def sampleRecipe1 : Recipe :=
  { name := "Bruschetta", description := "Toasted bread with tomato",
    ingredients := ["bread", "tomato"], instructions := ["toast", "top"],
    cookingTime := "15 minutes", difficulty := "Easy" }

/-- Second sample recipe. -/
def sampleRecipe2 : Recipe :=
  { name := "Tomato soup", description := "A warm soup",
    ingredients := ["tomato"], instructions := ["simmer"],
    cookingTime := "30 minutes", difficulty := "Medium" }

/-- Third sample recipe. -/
def sampleRecipe3 : Recipe :=
  { name := "Panzanella", description := "Bread salad",
    ingredients := ["bread", "tomato"], instructions := ["mix"],
    cookingTime := "20 minutes", difficulty := "Hard" }

/-- A sample parsed analysis as the app consumes it. -/
def sampleAnalysis : Analysis :=
  { foodDetected := "tomato and bread",
    recipes := [sampleRecipe1, sampleRecipe2, sampleRecipe3] }

/-- The app at rest: nothing in flight, nothing displayed. -/
def idleAppState : AppState :=
  { isAnalyzing := false, history := [], loading := false, resultsVisible := false,
    displayedFood := none, displayedAudio := none, errorMsg := none, cameraPaused := false }

/-- The app while an analysis is in flight. -/
def busyAppState : AppState :=
  { isAnalyzing := true, history := [], loading := true, resultsVisible := false,
    displayedFood := none, displayedAudio := none, errorMsg := none, cameraPaused := true }

/-- A well-formed uploaded image file (JPEG, 1 KB). -/
def sampleFile : FoodAnalyzerApp.FileInfo := { mime := "image/jpeg", size := 1024 }

/-- Build the persisted record `saveToHistory` creates from one append
request (timestamp id, ISO string, analysis). -/
def mkHist (x : Nat × String × Analysis) : HistoryItem :=
  { id := x.1, timestamp := x.2.1, foodDetected := x.2.2.foodDetected,
    recipes := x.2.2.recipes }

/-- One `saveToHistory` append, as a fold step over the persisted list. -/
def appendHistory (h : List HistoryItem) (x : Nat × String × Analysis) :
    List HistoryItem :=
  saveToHistoryList h x.1 x.2.1 x.2.2

/-- Eleven append requests with distinct ids. -/
def elevenInputs : List (Nat × String × Analysis) :=
  (List.range 11).map fun n => (n, "2025-01-01T00:00:00.000Z", sampleAnalysis)

/-- A camera currently showing the front (`user`) camera. -/
def userFacingState : CamState :=
  { stream := some { facing := "user", live := true }, isInitialized := true }

/-- A `getUserMedia` oracle that rejects every exact-facing request but
grants the default ideal-environment request with the rear camera. -/
def switchFailEnv : CamEnv :=
  { ideal := some "environment", exact := fun _ => false }

/-! ## Theorems -/

/-- C7: for every invocation of `analyzeFood` with no credential
configured, the call fails with the `Unauthenticated` error
(message `API key not configured`) and the network flag stays `false` — the
check is purely local and precedes any request. -/
theorem analyzeFood_unconfigured_fails_before_network :
    ∀ (env : StorageEnv) (s : ApiKeyState) (resp : HttpResp),
      (GroqAPI.isConfigured env s).1 = false →
      GroqAPI.analyzeFood env s resp = (.error .notConfigured, false) := by
  intro env s resp h
  simp [GroqAPI.analyzeFood, h]

/-- Witness for C7: a fresh client with empty storages is not configured,
and `analyzeFood` fails locally without touching the network. -/
theorem analyzeFood_unconfigured_fails_before_network_witness :
    (GroqAPI.isConfigured benignEnv emptyKeyState).1 = false ∧
    GroqAPI.analyzeFood benignEnv emptyKeyState twoRecipeResp =
      (.error .notConfigured, false) :=
  ⟨rfl, analyzeFood_unconfigured_fails_before_network benignEnv emptyKeyState twoRecipeResp rfl⟩

/-- C8: with a configured credential, `testConnection` succeeds exactly
when the HTTP status is 2xx, and on any other status it fails with the
credential-validation error template that carries that status code. -/
theorem testConnection_ok_iff_2xx :
    ∀ (env : StorageEnv) (s : ApiKeyState) (resp : HttpResp),
      (GroqAPI.isConfigured env s).1 = true →
      ((GroqAPI.testConnection env s resp).isOk = true ↔
        (200 ≤ resp.status ∧ resp.status ≤ 299)) ∧
      (¬(200 ≤ resp.status ∧ resp.status ≤ 299) →
        ∃ m, GroqAPI.testConnection env s resp =
          .error (GroqAPI.testFailMsg resp.status m)) := by
  intro env s resp h
  by_cases hok : 200 ≤ resp.status ∧ resp.status ≤ 299
  · constructor
    · simp [GroqAPI.testConnection, HttpResp.ok, h, hok, Except.isOk, Except.toBool]
    · intro hcontra; exact absurd hok hcontra
  · constructor
    · simp [GroqAPI.testConnection, HttpResp.ok, h, hok, Except.isOk, Except.toBool]
    · intro _
      exact ⟨jsOrElse resp.errMsg "Invalid API key", by
        simp [GroqAPI.testConnection, HttpResp.ok, h, hok]⟩

/-- Witness for C8: a configured client receiving a 401 fails the
credential test with a message carrying the status 401. -/
theorem testConnection_ok_iff_2xx_witness :
    (GroqAPI.isConfigured benignEnv configuredState).1 = true ∧
    (((GroqAPI.testConnection benignEnv configuredState resp401).isOk = true ↔
        (200 ≤ resp401.status ∧ resp401.status ≤ 299)) ∧
      (¬(200 ≤ resp401.status ∧ resp401.status ≤ 299) →
        ∃ m, GroqAPI.testConnection benignEnv configuredState resp401 =
          .error (GroqAPI.testFailMsg resp401.status m))) :=
  ⟨rfl, testConnection_ok_iff_2xx benignEnv configuredState resp401 rfl⟩

/-- C10: `clearApiKey` nulls the in-memory credential, removes the
durable `localStorage` copy (when `removeItem` does not throw), and never
touches the `sessionStorage` fallback copy; consequently, after a
`setApiKey` that fell back to `sessionStorage` (quota-exceeded
`localStorage`), a subsequent `getApiKey` still returns the old
credential and `isConfigured` still reports `true`. -/
theorem clearApiKey_leaves_session_copy :
    (∀ (env : StorageEnv) (s : ApiKeyState),
      (GroqAPI.clearApiKey env s).1.apiKey = none ∧
      (GroqAPI.clearApiKey env s).1.sessionKey = s.sessionKey ∧
      (env.localRemoveThrows = false →
        (GroqAPI.clearApiKey env s).1.localKey = none)) ∧
    ((GroqAPI.getApiKey quotaEnv
        (GroqAPI.clearApiKey quotaEnv
          (GroqAPI.setApiKey quotaEnv emptyKeyState "gsk-old")).1).1 = some "gsk-old" ∧
      (GroqAPI.isConfigured quotaEnv
        (GroqAPI.clearApiKey quotaEnv
          (GroqAPI.setApiKey quotaEnv emptyKeyState "gsk-old")).1).1 = true) := by
  constructor
  · intro env s
    by_cases hrm : env.localRemoveThrows
    · simp [GroqAPI.clearApiKey, hrm]
    · simp [GroqAPI.clearApiKey, hrm]
  · constructor <;> rfl

/-- Witness for C10: in a session where storage operations succeed,
clearing a configured client empties both the in-memory field and the
durable slot. -/
theorem clearApiKey_leaves_session_copy_witness :
    (GroqAPI.clearApiKey benignEnv configuredState).1.apiKey = none ∧
    benignEnv.localRemoveThrows = false ∧
    (GroqAPI.clearApiKey benignEnv configuredState).1.localKey = none :=
  ⟨(clearApiKey_leaves_session_copy.1 benignEnv configuredState).1, rfl,
   (clearApiKey_leaves_session_copy.1 benignEnv configuredState).2.2 rfl⟩

/-- C1 counterexample: a configured client receiving a successful vision
response whose content is valid JSON with exactly 2 recipes — `analyzeFood`
returns the parsed object as a success instead of failing with
`MalformedResponse`: the recipe count is never validated. -/
theorem analyzeFood_accepts_two_recipes :
    (GroqAPI.isConfigured benignEnv configuredState).1 = true ∧
    twoRecipeResp.ok = true ∧
    ((GroqAPI.analyzeFood benignEnv configuredState twoRecipeResp).1.toOption.bind
        Json.recipesCount) = some 2 ∧
    (GroqAPI.analyzeFood benignEnv configuredState twoRecipeResp).1.isOk = true :=
  ⟨rfl, rfl, rfl, rfl⟩

/-- C1 (amended): with a credential configured and a successful status,
`analyzeFood` fails (with the propagated `JSON.parse` error, i.e.
`MalformedResponse`) exactly when the textual content is not valid JSON;
content that parses to any JSON value — whatever its recipe count — is
returned as a success, as-is. -/
theorem analyzeFood_malformed_only_on_parse_failure :
    ∀ (env : StorageEnv) (s : ApiKeyState) (resp : HttpResp),
      (GroqAPI.isConfigured env s).1 = true →
      resp.ok = true →
      (jsonParse resp.content = none →
        GroqAPI.analyzeFood env s resp = (.error .parseError, true)) ∧
      (∀ j, jsonParse resp.content = some j →
        GroqAPI.analyzeFood env s resp = (.ok j, true)) := by
  intro env s resp h hok
  constructor
  · intro hp
    simp [GroqAPI.analyzeFood, h, hok, hp]
  · intro j hp
    simp [GroqAPI.analyzeFood, h, hok, hp]

/-- Witness for the amended C1: a prose (non-JSON) answer makes a
configured `analyzeFood` fail with the parse error. -/
theorem analyzeFood_malformed_only_on_parse_failure_witness :
    (GroqAPI.isConfigured benignEnv configuredState).1 = true ∧
    nonJsonResp.ok = true ∧
    jsonParse nonJsonResp.content = none ∧
    GroqAPI.analyzeFood benignEnv configuredState nonJsonResp =
      (.error .parseError, true) :=
  ⟨rfl, rfl, rfl,
   (analyzeFood_malformed_only_on_parse_failure benignEnv configuredState
      nonJsonResp rfl rfl).1 rfl⟩

/-- C9: the narration built by `generateVoiceDescription` for a detected
food and three recipes begins with `"I can see "`, the food, and
`". Here are three delicious recipes"`, and then mentions each of the
three recipes in order by name, description, lower-cased difficulty and
cooking time. -/
theorem voiceNarration_mentions_recipes_in_order :
    ∀ (food : String) (r0 r1 r2 : Recipe) (rest : List Recipe),
      ∃ d, GroqAPI.generateVoiceDescription food (r0 :: r1 :: r2 :: rest) = some d ∧
        (∃ tail, d = "I can see " ++ food ++ ". Here are three delicious recipes" ++ tail) ∧
        ∃ g1 g2 g3 g4 g5 g6 g7 g8 g9 g10 g11 g12,
          d = "I can see " ++ food ++ ". Here are three delicious recipes" ++ g1 ++
              r0.name ++ g2 ++ r0.description ++ g3 ++ r0.difficulty.toLower ++ g4 ++
              r0.cookingTime ++ g5 ++
              r1.name ++ g6 ++ r1.description ++ g7 ++ r1.difficulty.toLower ++ g8 ++
              r1.cookingTime ++ g9 ++
              r2.name ++ g10 ++ r2.description ++ g11 ++ r2.difficulty.toLower ++ g12 ++
              r2.cookingTime ++
              ".\n            \n            Choose any recipe button below to see the full instructions!" := by
  intro food r0 r1 r2 rest
  refine ⟨GroqAPI.voiceNarration food r0 r1 r2, rfl,
    ⟨" you can make: \n            \n            First, " ++ r0.name ++ " - " ++
      r0.description ++ ". This is a " ++ r0.difficulty.toLower ++
      " recipe that takes about " ++ r0.cookingTime ++
      ".\n            \n            Second, " ++ r1.name ++ " - " ++ r1.description ++
      ". This " ++ r1.difficulty.toLower ++ " dish takes " ++ r1.cookingTime ++
      " to prepare.\n            \n            Finally, " ++ r2.name ++ " - " ++
      r2.description ++ ". This " ++ r2.difficulty.toLower ++
      " recipe can be ready in " ++ r2.cookingTime ++
      ".\n            \n            Choose any recipe button below to see the full instructions!", ?_⟩,
    " you can make: \n            \n            First, ", " - ", ". This is a ",
    " recipe that takes about ", ".\n            \n            Second, ", " - ",
    ". This ", " dish takes ", " to prepare.\n            \n            Finally, ",
    " - ", ". This ", " recipe can be ready in ", ?_⟩ <;>
  · simp only [GroqAPI.voiceNarration]
    rw [show (". Here are three delicious recipes you can make: \n            \n            First, " : String) =
      ". Here are three delicious recipes" ++ " you can make: \n            \n            First, " from rfl]
    simp only [String.append_assoc]

/-- One `saveToHistory` append step equals prepend-then-truncate. -/
theorem appendHistory_eq (h : List HistoryItem) (x : Nat × String × Analysis) :
    appendHistory h x = (mkHist x :: h).take 10 := rfl

/-- Folding `saveToHistory` appends from an empty persisted list keeps
exactly the 10 most recent records, most recent first. -/
theorem foldl_appendHistory_eq (l : List (Nat × String × Analysis)) :
    List.foldl appendHistory [] l = (l.map mkHist).reverse.take 10 := by
  induction l using List.reverseRecOn with
  | nil => rfl
  | append_singleton l x ih =>
    rw [List.foldl_append, List.foldl_cons, List.foldl_nil, ih, appendHistory_eq]
    simp [List.take_succ_cons, List.take_take]

/-- C3: every `saveToHistory` append leaves at most 10 entries; a
sequence of appends starting from an empty history yields the 10 most
recent entries most-recent-first; in particular 11 appends leave exactly
the 10 most recent, the oldest (first appended) being evicted. -/
theorem history_bounded_most_recent_first :
    (∀ (h : List HistoryItem) (x : Nat × String × Analysis),
        (appendHistory h x).length ≤ 10) ∧
    (∀ l : List (Nat × String × Analysis),
        List.foldl appendHistory [] l = (l.map mkHist).reverse.take 10) ∧
    (∀ l : List (Nat × String × Analysis), l.length = 11 →
        List.foldl appendHistory [] l = ((l.drop 1).map mkHist).reverse) := by
  refine ⟨?_, foldl_appendHistory_eq, ?_⟩
  · intro h x
    rw [appendHistory_eq]
    simp [List.length_take_le]
  · intro l hl
    rw [foldl_appendHistory_eq, List.take_reverse, List.length_map, hl]
    simp [List.map_drop]

/-- Witness for C3: eleven concrete appends leave exactly the last ten,
most recent first. -/
theorem history_bounded_most_recent_first_witness :
    elevenInputs.length = 11 ∧
    List.foldl appendHistory [] elevenInputs =
      ((elevenInputs.drop 1).map mkHist).reverse :=
  ⟨rfl, history_bounded_most_recent_first.2.2 elevenInputs rfl⟩

/-- C2: when no analysis is in flight, the camera capture succeeds and
the vision call succeeds but the speech call fails, the orchestrated
`analyzeFood` still completes: the result is saved to history and
displayed with no audio attached, no error is surfaced (the speech error
does not propagate), and the in-flight flag is cleared. -/
theorem speech_failure_still_displays_and_saves :
    ∀ (s : AppState) (now : Nat) (iso img : String) (a : Analysis) (e : String),
      s.isAnalyzing = false →
      (FoodAnalyzerApp.analyzeFood s now iso (some img) (.ok a) (.error e)).1.history =
          saveToHistoryList s.history now iso a ∧
      (FoodAnalyzerApp.analyzeFood s now iso (some img) (.ok a) (.error e)).1.displayedFood =
          some a.foodDetected ∧
      (FoodAnalyzerApp.analyzeFood s now iso (some img) (.ok a) (.error e)).1.displayedAudio =
          none ∧
      (FoodAnalyzerApp.analyzeFood s now iso (some img) (.ok a) (.error e)).1.resultsVisible =
          true ∧
      (FoodAnalyzerApp.analyzeFood s now iso (some img) (.ok a) (.error e)).1.errorMsg =
          s.errorMsg ∧
      (FoodAnalyzerApp.analyzeFood s now iso (some img) (.ok a) (.error e)).1.isAnalyzing =
          false ∧
      (FoodAnalyzerApp.analyzeFood s now iso (some img) (.ok a) (.error e)).2.visionCalled =
          true := by
  intro s now iso img a e h
  simp [FoodAnalyzerApp.analyzeFood, h, FoodAnalyzerApp.showLoading,
    FoodAnalyzerApp.showResults, FoodAnalyzerApp.hideLoading]

/-- Witness for C2: a concrete idle app, successful capture and vision,
failing speech — the result is displayed audio-less and saved. -/
theorem speech_failure_still_displays_and_saves_witness :
    idleAppState.isAnalyzing = false ∧
    (FoodAnalyzerApp.analyzeFood idleAppState 7 "2025-01-01T00:00:00.000Z"
        (some "data:image/jpeg;base64,xyz") (.ok sampleAnalysis)
        (.error "TTS API error: 500 - Unknown error")).1.displayedAudio = none :=
  ⟨rfl,
   (speech_failure_still_displays_and_saves idleAppState 7 "2025-01-01T00:00:00.000Z"
      "data:image/jpeg;base64,xyz" sampleAnalysis
      "TTS API error: 500 - Unknown error" rfl).2.2.1⟩

/-- C5 counterexample: with an analysis already in flight
(`isAnalyzing = true`), a file upload of a valid image is not rejected —
the upload path performs the remote vision call anyway, because
`handleFileUpload` never consults the guard. -/
theorem handleFileUpload_ignores_inflight_guard :
    busyAppState.isAnalyzing = true ∧
    (FoodAnalyzerApp.handleFileUpload busyAppState (some sampleFile)
        (.ok "data:image/jpeg;base64,xyz") 7 "2025-01-01T00:00:00.000Z"
        (.ok sampleAnalysis) (.error "tts down")).2.visionCalled = true :=
  ⟨rfl, rfl⟩

/-- C5 (amended): the camera analyze action is rejected while an
analysis is in flight — state unchanged, no capture, no remote call —
but the file-upload path has no in-flight guard: its capture/remote
behavior is identical whether or not `isAnalyzing` is set. -/
theorem inflight_guard_camera_path_only :
    (∀ (s : AppState) (now : Nat) (iso : String) (cap : Option String)
        (vis : Except String Analysis) (spe : Except String String),
      s.isAnalyzing = true →
      FoodAnalyzerApp.analyzeFood s now iso cap vis spe = (s, emptyTrace)) ∧
    (∀ (s : AppState) (file : Option FoodAnalyzerApp.FileInfo)
        (r : Except String String) (now : Nat) (iso : String)
        (vis : Except String Analysis) (spe : Except String String),
      (FoodAnalyzerApp.handleFileUpload { s with isAnalyzing := true }
          file r now iso vis spe).2 =
        (FoodAnalyzerApp.handleFileUpload { s with isAnalyzing := false }
          file r now iso vis spe).2) := by
  constructor
  · intro s now iso cap vis spe h
    simp [FoodAnalyzerApp.analyzeFood, h]
  · intro s file r now iso vis spe
    cases file with
    | none => rfl
    | some f =>
      by_cases h1 : jsStartsWith f.mime "image/" = false
      · simp [FoodAnalyzerApp.handleFileUpload, h1]
      · by_cases h2 : 10 * 1024 * 1024 < f.size
        · simp [FoodAnalyzerApp.handleFileUpload, h1, h2]
        · cases r with
          | error e => simp [FoodAnalyzerApp.handleFileUpload, h1, h2]
          | ok d =>
            cases vis with
            | error e => simp [FoodAnalyzerApp.handleFileUpload, h1, h2]
            | ok a => simp [FoodAnalyzerApp.handleFileUpload, h1, h2]

/-- Witness for the amended C5: a busy app rejects the camera analyze
action outright. -/
theorem inflight_guard_camera_path_only_witness :
    busyAppState.isAnalyzing = true ∧
    FoodAnalyzerApp.analyzeFood busyAppState 7 "2025-01-01T00:00:00.000Z"
        (some "data:image/jpeg;base64,xyz") (.ok sampleAnalysis)
        (.error "tts down") = (busyAppState, emptyTrace) :=
  ⟨rfl,
   inflight_guard_camera_path_only.1 busyAppState 7 "2025-01-01T00:00:00.000Z"
     (some "data:image/jpeg;base64,xyz") (.ok sampleAnalysis) (.error "tts down") rfl⟩

/-- In the no-scale case `captureImage` keeps the frame dimensions. -/
theorem scaleDims_noScale (w h : Rat) (hg : ¬(w > 1024 ∨ h > 768)) :
    CameraManager.scaleDims w h = (w, h) := by
  simp [CameraManager.scaleDims, hg]

/-- In the landscape scale case the width is pinned to 1024. -/
theorem scaleDims_wide (w h : Rat) (hg : w > 1024 ∨ h > 768) (hwh : w > h) :
    CameraManager.scaleDims w h = (1024, 1024 / (w / h)) := by
  simp [CameraManager.scaleDims, hg, hwh]

/-- In the portrait/square scale case the height is pinned to 768. -/
theorem scaleDims_tall (w h : Rat) (hg : w > 1024 ∨ h > 768) (hwh : ¬w > h) :
    CameraManager.scaleDims w h = (768 * (w / h), 768) := by
  simp [CameraManager.scaleDims, hg, hwh]

/-- C4 counterexample: an initialized camera with a 1100×1000 frame —
`captureImage` pins the width to 1024 but the computed height,
1024∕(1100∕1000) = 10240∕11 ≈ 930.9, exceeds the 768 cap the claim
asserts (the aspect ratio is preserved, but only the chosen axis is
capped when `width > height`). -/
theorem captureImage_height_exceeds_768 :
    ∃ img, CameraManager.captureImage true 1100 1000 = some img ∧
      img.width = 1024 ∧ (768 : Rat) < img.height ∧
      img.width * 1000 = img.height * 1100 := by
  refine ⟨{ width := 1024, height := 1024 / (1100 / 1000 : Rat), quality := 7 / 10 },
    ?_, rfl, ?_, ?_⟩
  · unfold CameraManager.captureImage
    rw [scaleDims_wide 1100 1000 (by norm_num) (by norm_num)]
    rfl
  · show (768 : Rat) < 1024 / (1100 / 1000)
    norm_num
  · show (1024 : Rat) * 1000 = 1024 / (1100 / 1000) * 1100
    norm_num

/-- C4 (amended): for every initialized camera with positive frame
dimensions, `captureImage` produces an image whose width and height are
each at most 1024 (the height may exceed 768, but never 1024), whose
aspect ratio equals that of the frame, encoded at quality 0.7. -/
theorem captureImage_caps_and_preserves_aspect :
    ∀ (w h : Rat), 0 < w → 0 < h →
      ∃ img, CameraManager.captureImage true w h = some img ∧
        img.width ≤ 1024 ∧ img.height ≤ 1024 ∧
        img.width * h = img.height * w ∧ img.quality = 7 / 10 := by
  intro w h hw hh
  have hw0 : w ≠ 0 := ne_of_gt hw
  have hh0 : h ≠ 0 := ne_of_gt hh
  refine ⟨_, rfl, ?_, ?_, ?_, rfl⟩
  · by_cases hg : w > 1024 ∨ h > 768
    · by_cases hwh : w > h
      · rw [scaleDims_wide w h hg hwh]
      · rw [scaleDims_tall w h hg hwh]
        show 768 * (w / h) ≤ 1024
        have h1 : w / h ≤ 1 := (div_le_one hh).mpr (le_of_not_lt hwh)
        nlinarith
    · rw [scaleDims_noScale w h hg]
      push_neg at hg
      exact hg.1
  · by_cases hg : w > 1024 ∨ h > 768
    · by_cases hwh : w > h
      · rw [scaleDims_wide w h hg hwh]
        show 1024 / (w / h) ≤ 1024
        have h1 : (1 : Rat) ≤ w / h := (one_le_div hh).mpr (le_of_lt hwh)
        exact div_le_self (by norm_num) h1
      · rw [scaleDims_tall w h hg hwh]
        show (768 : Rat) ≤ 1024
        norm_num
    · rw [scaleDims_noScale w h hg]
      push_neg at hg
      show h ≤ 1024
      linarith [hg.2]
  · by_cases hg : w > 1024 ∨ h > 768
    · by_cases hwh : w > h
      · rw [scaleDims_wide w h hg hwh]
        show 1024 * h = 1024 / (w / h) * w
        field_simp
      · rw [scaleDims_tall w h hg hwh]
        show 768 * (w / h) * h = 768 * w
        field_simp
    · rw [scaleDims_noScale w h hg]
      show w * h = h * w
      ring

/-- Witness for the amended C4: a concrete 800×600 frame is captured
within both caps at quality 0.7 with its 4:3 ratio intact. -/
theorem captureImage_caps_and_preserves_aspect_witness :
    (0 : Rat) < 800 ∧ (0 : Rat) < 600 ∧
    (∃ img, CameraManager.captureImage true 800 600 = some img ∧
      img.width ≤ 1024 ∧ img.height ≤ 1024 ∧
      img.width * 600 = img.height * 800 ∧ img.quality = 7 / 10) :=
  ⟨by norm_num, by norm_num,
   captureImage_caps_and_preserves_aspect 800 600 (by norm_num) (by norm_num)⟩

/-- C6 counterexample: a camera currently on the front (`user`) camera,
in an environment where the exact-facing request fails and the default
re-initialization grants the rear camera — after the failed switch the
component holds an `environment`-facing stream, not one with the same
facing as before the switch. -/
theorem switchCamera_fallback_changes_facing :
    userFacingState.stream.map CamStream.facing = some "user" ∧
    (CameraManager.switchCamera switchFailEnv userFacingState).2 = false ∧
    (CameraManager.switchCamera switchFailEnv userFacingState).1.stream.map
        CamStream.facing = some "environment" ∧
    (CameraManager.switchCamera switchFailEnv userFacingState).1.stream.map
        CamStream.facing ≠ userFacingState.stream.map CamStream.facing := by
  refine ⟨rfl, rfl, rfl, ?_⟩
  intro hcontra
  simp [CameraManager.switchCamera, CameraManager.initCamera,
    CameraManager.oppositeFacing, switchFailEnv, userFacingState] at hcontra

/-- C6 (amended): when the exact opposite-facing request fails,
`switchCamera` falls back to re-running the default initialization
(ideal `environment` facing) and reports failure: if the browser grants
the default request the component regains a live stream whose facing is
whatever the browser chose — not necessarily the facing it had before
the switch — and if the default request also fails the component is left
holding its previous, now stopped, stream. -/
theorem switchCamera_fallback_reinitializes_default :
    ∀ (env : CamEnv) (s : CamState) (st : CamStream),
      s.isInitialized = true → s.stream = some st →
      env.exact (CameraManager.oppositeFacing st.facing) = false →
      (CameraManager.switchCamera env s).2 = false ∧
      (CameraManager.switchCamera env s).1.stream =
        (match env.ideal with
          | some f => some { facing := f, live := true }
          | none => some { facing := st.facing, live := false }) := by
  intro env s st hinit hstream hexact
  cases hideal : env.ideal with
  | some f =>
    simp [CameraManager.switchCamera, CameraManager.initCamera, hinit, hstream,
      hexact, hideal]
  | none =>
    simp [CameraManager.switchCamera, CameraManager.initCamera, hinit, hstream,
      hexact, hideal]

/-- Witness for the amended C6: the concrete failed switch from the
front camera falls back to the granted rear stream and returns `false`. -/
theorem switchCamera_fallback_reinitializes_default_witness :
    userFacingState.isInitialized = true ∧
    userFacingState.stream = some { facing := "user", live := true } ∧
    switchFailEnv.exact (CameraManager.oppositeFacing "user") = false ∧
    ((CameraManager.switchCamera switchFailEnv userFacingState).2 = false ∧
      (CameraManager.switchCamera switchFailEnv userFacingState).1.stream =
        (match switchFailEnv.ideal with
          | some f => some { facing := f, live := true }
          | none => some { facing := "user", live := false })) :=
  ⟨rfl, rfl, rfl,
   switchCamera_fallback_reinitializes_default switchFailEnv userFacingState
     { facing := "user", live := true } rfl rfl rfl⟩
